import Mathlib

/-!
Verification of the paginated conversation/message feed of the whatsapp
mobile client.  Definitions below are shallow embeddings of:

* `src/whatsapp-mobile/src/features/chat/types.ts` (data model),
* `src/whatsapp-mobile/src/features/chat/chat.store.ts` (`appendConversations`),
* `src/whatsapp-mobile/src/features/chat/screens/ConversationListScreen.tsx`
  (`loadMore`, the initial message load, `loadOlder`, the highlight
  resolver effect),
* `src/whatsapp-mobile/src/features/chat/components/MessageComposer.tsx`
  (`handleSendText`),
* the chat services module (`fetchConversationReaders`).

Asynchronous fetches are embedded by passing the fetch result (or `none`
for a rejected promise) to the state-transition function; JavaScript
truthiness of strings and numbers is modelled explicitly.
-/

namespace WhatsappApp

/-! ### Data model (types.ts) -/

inductive MessageStatus
  | sending
  | sent
  | delivered
  | read
deriving DecidableEq

inductive MessageType
  | text
  | image
  | audio
  | video
deriving DecidableEq

inductive MessageDirection
  | incoming
  | outgoing
deriving DecidableEq

structure Message where
  id : String
  conversationId : String
  senderId : Option String := none
  content : String := ""
  timestamp : Nat := 0
  status : Option MessageStatus := none
  type : MessageType := MessageType.text
  direction : Option MessageDirection := none
  displayText : Option String := none
  mediaUrl : Option String := none
  thumbnailUrl : Option String := none
deriving DecidableEq

structure Conversation where
  id : String
  name : String := ""
  lastMessage : Option String := none
  lastMessageAt : Option Nat := none
  unreadCount : Nat := 0
  avatar : Option String := none
deriving DecidableEq

/-- JavaScript truthiness of a `string | null | undefined` value:
`null`, `undefined` and the empty string are falsy. -/
def strTruthy : Option String → Bool
  | some s => !(s == "")
  | none => false

/-- JavaScript truthiness of a `number | undefined` value:
`undefined` and `0` are falsy. -/
def natTruthy : Option Nat → Bool
  | some n => !(n == 0)
  | none => false

/-! ### Feed merger for conversations (chat.store.ts, `appendConversations`) -/

/-- `appendConversations` from `chat.store.ts` lines 27-32: build the set of
ids already present, keep only incoming conversations whose id is not in
that set, and append them after the existing list. -/
def appendConversations (existing incoming : List Conversation) : List Conversation :=
  let existingIds := existing.map Conversation.id
  let newOnes := incoming.filter (fun c => !(existingIds.contains c.id))
  existing ++ newOnes

/-! ### Conversation list controller (ConversationListScreen.tsx, `loadMore`) -/

/-- The page shape returned by `fetchConversations`. -/
structure ConvPage where
  conversations : List Conversation
  nextCursor : Option String
  hasMore : Bool
deriving DecidableEq

/-- The pagination-relevant state of `ConversationListScreen`:
the accumulated feed, the cursor, the `hasMore` flag, the `loadingMore`
state flag, the `onEndReachedCalled` ref, and the error banner. -/
structure ConvListState where
  conversations : List Conversation
  nextCursor : Option String
  hasMore : Bool
  loadingMore : Bool
  onEndReachedCalled : Bool
  error : Option String := none
deriving DecidableEq

/-- `loadMore` from `ConversationListScreen.tsx` lines 102-118, with the
awaited `fetchConversations` outcome passed in (`none` models a rejected
promise, swallowed by the empty `catch`).  Returns the new state and
whether a request was actually issued. -/
def loadMore (s : ConvListState) (result : Option ConvPage) : ConvListState × Bool :=
  if s.loadingMore || !s.hasMore || !(strTruthy s.nextCursor) then (s, false)
  else if s.onEndReachedCalled then (s, false)
  else
    match result with
    | some r =>
        ({ s with
            conversations := appendConversations s.conversations r.conversations,
            nextCursor := r.nextCursor,
            hasMore := r.hasMore,
            loadingMore := false,
            onEndReachedCalled := false }, true)
    | none =>
        ({ s with loadingMore := false, onEndReachedCalled := false }, true)

/-! ### Message list controller (ConversationListScreen.tsx, detail screen) -/

/-- The message-feed cursor: `{ messageId, timestamp }`, timestamp kept as a
string exactly as in the component state. -/
structure MsgCursor where
  messageId : String
  timestamp : String
deriving DecidableEq

/-- The page shape returned by `fetchConversationMessages`. -/
structure MsgPage where
  messages : List Message
  nextCursor : Option MsgCursor
  hasMore : Bool
deriving DecidableEq

/-- The pending highlight target carried in navigation params:
`{ id?: string, ts?: number }`. -/
structure PendingHighlight where
  id : Option String
  ts : Option Nat
deriving DecidableEq

/-- The pagination/highlight-relevant state of `ConversationDetailScreen`. -/
structure DetailState where
  messages : List Message
  nextCursor : Option MsgCursor
  hasMore : Bool
  loadingOlder : Bool
  onEndReached : Bool
  pendingHighlight : Option PendingHighlight
  highlightedMessageId : Option String
  error : Option String := none
deriving DecidableEq

/-- The initial message load (lines 1018-1021): the fetched page is
reversed — `const newestFirst = [...apiMessages].reverse()` — and becomes
the whole message list. -/
def initialMessageLoad (apiMessages : List Message) : List Message :=
  apiMessages.reverse

/-- The merge step of `loadOlder` (lines 1052-1055): the older chunk is
reversed and appended after the existing newest-first list. -/
def appendOlderMessages (prev olderChunk : List Message) : List Message :=
  prev ++ olderChunk.reverse

/-- `loadOlder` from `ConversationListScreen.tsx` lines 1038-1064, with the
awaited `fetchConversationMessages` outcome passed in (`none` models a
rejected promise, swallowed by the empty `catch`).  Returns the new state
and whether a request was actually issued. -/
def loadOlder (s : DetailState) (result : Option MsgPage) : DetailState × Bool :=
  if s.loadingOlder || !s.hasMore || s.nextCursor.isNone then (s, false)
  else if s.onEndReached then (s, false)
  else
    match result with
    | some r =>
        ({ s with
            messages := appendOlderMessages s.messages r.messages,
            nextCursor := r.nextCursor,
            hasMore := r.hasMore,
            loadingOlder := false,
            onEndReached := false }, true)
    | none =>
        ({ s with loadingOlder := false, onEndReached := false }, true)

/-! ### Highlight resolver (ConversationListScreen.tsx, lines 1066-1113) -/

/-- `Array.prototype.findIndex`, with `-1` rendered as `none`. -/
def findIndexJs {α : Type} (p : α → Bool) : List α → Option Nat
  | [] => none
  | a :: rest =>
      if p a then some 0
      else (findIndexJs p rest).map (· + 1)

/-- The id scan of lines 1070-1072: run only when `pendingHighlight.id` is
truthy, matching on exact id equality. -/
def hlFindIndexById (t : PendingHighlight) (messages : List Message) : Option Nat :=
  match t.id with
  | some hid =>
      if hid == "" then none
      else findIndexJs (fun (m : Message) => m.id == hid) messages
  | none => none

/-- The timestamp scan of lines 1073-1075: run only when
`pendingHighlight.ts` is truthy, matching on exact timestamp equality. -/
def hlFindIndexByTs (t : PendingHighlight) (messages : List Message) : Option Nat :=
  match t.ts with
  | some hts =>
      if hts == 0 then none
      else findIndexJs (fun (m : Message) => m.timestamp == hts) messages
  | none => none

/-- The full scan of lines 1069-1075: exact id match first; only if that
yields no index, exact timestamp match. -/
def hlFindIndex (t : PendingHighlight) (messages : List Message) : Option Nat :=
  match hlFindIndexById t messages with
  | some i => some i
  | none => hlFindIndexByTs t messages

/-- The highlight display duration passed to `setTimeout` on line 1087. -/
def highlightDisplayMs : Nat := 1000

/-- Outcome of one run of the highlight resolver effect: the updated
state, the delay of the one-shot clearing timer it started (if any), and
whether it fired a `loadOlder` fetch. -/
structure EffectResult where
  state : DetailState
  timerDelayMs : Option Nat
  triggeredFetch : Bool
deriving DecidableEq

/-- One run of the highlight resolver effect (lines 1066-1113): return
early unless a pending target and a nonempty message list exist; scan by
id then timestamp; on a hit set `highlightedMessageId` to the matched
message's id, start the 1000 ms clearing timer, and clear the pending
target; on a miss either trigger one `loadOlder` (when `hasMore` and not
already loading) or give up by clearing the pending target. -/
def highlightEffect (s : DetailState) : EffectResult :=
  match s.pendingHighlight with
  | none => ⟨s, none, false⟩
  | some t =>
      if s.messages.isEmpty then ⟨s, none, false⟩
      else
        match hlFindIndex t s.messages with
        | some i =>
            ⟨{ s with
                highlightedMessageId := (s.messages.get? i).map Message.id,
                pendingHighlight := none }, some highlightDisplayMs, false⟩
        | none =>
            if s.hasMore && !s.loadingOlder then ⟨s, none, true⟩
            else ⟨{ s with pendingHighlight := none }, none, false⟩

/-- Firing of the one-shot timer started on lines 1085-1087:
`setHighlightedMessageId(null)`. -/
def highlightTimerFire (s : DetailState) : DetailState :=
  { s with highlightedMessageId := none }

/-- The synchronous prefix of `loadOlder` (lines 1039-1043): the guards,
then `onEndReachedRef.current = true` and `setLoadingOlder(true)`; the
request is now in flight and the caller awaits it.  Returns the state and
whether a request was issued. -/
def loadOlderBegin (s : DetailState) : DetailState × Bool :=
  if s.loadingOlder || !s.hasMore || s.nextCursor.isNone then (s, false)
  else if s.onEndReached then (s, false)
  else ({ s with loadingOlder := true, onEndReached := true }, true)

/-- The continuation of `loadOlder` after the awaited fetch settles
(lines 1044-1063): on success append the reversed chunk and take the
page's cursor and `hasMore`; on rejection the empty `catch` changes
nothing; the `finally` resets the flag and the ref either way. -/
def loadOlderSettle (s : DetailState) (result : Option MsgPage) : DetailState :=
  match result with
  | some r =>
      { s with
          messages := appendOlderMessages s.messages r.messages,
          nextCursor := r.nextCursor,
          hasMore := r.hasMore,
          loadingOlder := false,
          onEndReached := false }
  | none => { s with loadingOlder := false, onEndReached := false }

/-- The resolver-driven run of the detail screen, following the effect's
dependency array (line 1113, which includes `loadingOlder`): when the
effect triggers a fetch, `loadOlder` first sets the in-flight flag and the
ref, the effect re-runs on that flag change while the request is still
outstanding (with the message list unchanged), and only afterwards does
the awaited page land and the effect re-run again on the updated state.
Returns the final state and the number of older-page fetches issued. -/
def resolverRun : List MsgPage → DetailState → DetailState × Nat
  | [], s => ((highlightEffect s).state, 0)
  | p :: rest, s =>
      let r := highlightEffect s
      if r.triggeredFetch then
        let begun := loadOlderBegin r.state
        if begun.snd then
          let mid := highlightEffect begun.fst
          let landed := loadOlderSettle mid.state (some p)
          let next := resolverRun rest landed
          (next.fst, next.snd + 1)
        else (begun.fst, 0)
      else (r.state, 0)

/-! ### Message composer (MessageComposer.tsx, `handleSendText`) -/

/-- JavaScript `String.prototype.trim`: drop whitespace characters from
both ends of the string. -/
def jsTrim (s : String) : String :=
  String.mk
    (((s.data.dropWhile Char.isWhitespace).reverse.dropWhile Char.isWhitespace).reverse)

/-- `handleSendText` from `MessageComposer.tsx` lines 113-123: trim the
draft; bail out (draft untouched) when the trimmed content or the
conversation id is falsy; otherwise clear the input, attempt the send,
and on rejection restore the trimmed content.  Returns the draft text
after the handler and whether `sendMessage` was called. -/
def handleSendText (text : String) (conversationId : String) (sendSucceeds : Bool) :
    String × Bool :=
  let content := jsTrim text
  if content == "" || conversationId == "" then (text, false)
  else if sendSucceeds then ("", true)
  else (content, true)

/-! ### Conversation readers service (`fetchConversationReaders`) -/

/-- A raw `lastReadAt` value: `string | number | Date`. -/
inductive JsTimeValue
  | num (n : Nat)
  | date (ms : Nat)
  | str (s : String)
deriving DecidableEq

/-- One raw entry of the readers API response; `avatar` distinguishes an
absent field (`none`) from an explicit `null` (`some none`). -/
structure ReaderApiEntry where
  userId : Option String := none
  name : Option String := none
  avatar : Option (Option String) := none
  lastReadAt : Option JsTimeValue := none
  lastReadMessageId : Option String := none
deriving DecidableEq

/-- Response shape of `GET /whatsapp/conversations/:id/readers`. -/
structure ConversationReadersApiResponse where
  success : Option Bool := none
  readers : Option (List ReaderApiEntry) := none
deriving DecidableEq

/-- The mapped reader returned to the UI. -/
structure ConversationReader where
  userId : String
  name : String
  avatar : Option String
  lastReadAt : Option Nat := none
  lastReadMessageId : Option String := none
deriving DecidableEq

/-- The `lastReadAt` normalisation: numbers pass through, `Date` values
yield their epoch milliseconds, strings go through `new Date(s).getTime()`
(the date parser is an external collaborator, passed as `dateParse`). -/
def jsTimeToMs (dateParse : String → Nat) : JsTimeValue → Nat
  | JsTimeValue.num n => n
  | JsTimeValue.date ms => ms
  | JsTimeValue.str s => dateParse s

/-- The per-entry mapping inside `fetchConversationReaders`. -/
def mapReader (dateParse : String → Nat) (r : ReaderApiEntry) : ConversationReader :=
  { userId := r.userId.getD ""
    name := r.name.getD "Unknown"
    avatar := r.avatar.getD none
    lastReadAt := r.lastReadAt.map (jsTimeToMs dateParse)
    lastReadMessageId := r.lastReadMessageId }

/-- `fetchConversationReaders` from the chat services module (lines
347-377): an empty conversation id short-circuits to `[]` with no request;
otherwise the HTTP call and mapping run inside a `try` whose `catch`
returns `[]`.  The `Except` argument carries the request outcome; the
returned `Bool` records whether a request was issued. -/
def fetchConversationReaders (dateParse : String → Nat) (conversationId : String)
    (response : Except String ConversationReadersApiResponse) :
    List ConversationReader × Bool :=
  if conversationId == "" then ([], false)
  else
    match response with
    | Except.error _ => ([], true)
    | Except.ok data =>
        ((data.readers.getD []).map (mapReader dateParse), true)

/-! ### Concrete fixtures used by scenario theorems and witnesses -/

/-- A concrete message with numeric payload `n`: id `"m" ++ n`, timestamp `n`. -/
def mkMsg (n : Nat) : Message :=
  { id := "m" ++ toString n
    conversationId := "conv1"
    content := "msg"
    timestamp := n
    type := MessageType.text
    direction := some MessageDirection.incoming }

/-- Page `j` (0-based fetch order) of a 3-page, 20-messages-per-page feed:
page 0 holds messages 40-59, page 1 holds 20-39, page 2 holds 0-19. -/
def pageItems (j : Nat) : List Message :=
  (List.range 20).map (fun k => mkMsg (20 * (2 - j) + k))

/-- Detail-screen state right after the initial message load of page 0,
with a pending highlight target whose id lives on page 2. -/
def threePageStart : DetailState :=
  { messages := initialMessageLoad (pageItems 0)
    nextCursor := some ⟨"m40", "40"⟩
    hasMore := true
    loadingOlder := false
    onEndReached := false
    pendingHighlight := some ⟨some "m7", none⟩
    highlightedMessageId := none }

/-- The two remaining server pages of the 3-page feed. -/
def threePageServer : List MsgPage :=
  [ ⟨pageItems 1, some ⟨"m20", "20"⟩, true⟩,
    ⟨pageItems 2, none, false⟩ ]

def convA : Conversation := { id := "A", name := "Alice" }

def convB : Conversation := { id := "B", name := "Bob" }

def convC : Conversation := { id := "C", name := "Cara" }

def convD : Conversation := { id := "D", name := "Dan" }

/-- A single concrete message used for duplicate-id scenarios. -/
def msgDup : Message := { id := "a", conversationId := "conv1" }

/-- Detail-screen state holding `msgDup`, about to load an older page. -/
def dupOlderStart : DetailState :=
  { messages := initialMessageLoad [msgDup]
    nextCursor := some ⟨"a", "1"⟩
    hasMore := true
    loadingOlder := false
    onEndReached := false
    pendingHighlight := none
    highlightedMessageId := none }

/-- Conversation-list state with a page fetch in flight. -/
def busyConvState : ConvListState :=
  { conversations := [convA]
    nextCursor := some "c1"
    hasMore := true
    loadingMore := true
    onEndReachedCalled := true }

/-- Detail-screen state with an older-page fetch in flight. -/
def busyDetailState : DetailState :=
  { messages := [msgDup]
    nextCursor := some ⟨"a", "1"⟩
    hasMore := true
    loadingOlder := true
    onEndReached := true
    pendingHighlight := none
    highlightedMessageId := none }

/-- Detail-screen state with a pending highlight but no loaded messages
and no further pages. -/
def emptyFeedState : DetailState :=
  { messages := []
    nextCursor := none
    hasMore := false
    loadingOlder := false
    onEndReached := false
    pendingHighlight := some ⟨some "m1", none⟩
    highlightedMessageId := none }

/-- A concrete message whose id is a pending highlight target. -/
def msgFound : Message := { id := "w1", conversationId := "conv1", timestamp := 5 }

/-- Detail-screen state whose single loaded message matches the pending
highlight target by id. -/
def foundState : DetailState :=
  { messages := [msgFound]
    nextCursor := none
    hasMore := false
    loadingOlder := false
    onEndReached := false
    pendingHighlight := some ⟨some "w1", none⟩
    highlightedMessageId := none }

/-- Detail-screen state with a pending target absent from the loaded
messages and `hasMore = false`. -/
def exhaustedState : DetailState :=
  { messages := [msgFound]
    nextCursor := none
    hasMore := false
    loadingOlder := false
    onEndReached := false
    pendingHighlight := some ⟨some "zz", none⟩
    highlightedMessageId := none }

/-! ### Helper lemmas -/

theorem foldl_appendOlderMessages (pages : List (List Message)) (acc : List Message) :
    pages.foldl appendOlderMessages acc = acc ++ (pages.map List.reverse).flatten := by
  induction pages generalizing acc with
  | nil => simp
  | cons p rest ih =>
      simp [appendOlderMessages, ih, List.append_assoc]

theorem loadOlder_eq_begin_settle (s : DetailState) (r : Option MsgPage) :
    loadOlder s r =
      (if (loadOlderBegin s).snd then (loadOlderSettle (loadOlderBegin s).fst r, true)
       else loadOlderBegin s) := by
  unfold loadOlder loadOlderBegin loadOlderSettle
  split
  · rfl
  · split
    · rfl
    · cases r <;> rfl

theorem findIndexJs_get {α : Type} (p : α → Bool) (l : List α) (i : Nat)
    (h : findIndexJs p l = some i) : ∃ m, l.get? i = some m ∧ p m = true := by
  induction l generalizing i with
  | nil => simp [findIndexJs] at h
  | cons a rest ih =>
      by_cases hpa : p a
      · simp [findIndexJs, hpa] at h
        exact h ▸ ⟨a, rfl, hpa⟩
      · simp [findIndexJs, hpa] at h
        obtain ⟨j, hj, rfl⟩ := h
        obtain ⟨m, hm, hpm⟩ := ih j hj
        exact ⟨m, by simpa using hm, hpm⟩

theorem hlFindIndexById_get (t : PendingHighlight) (l : List Message) (i : Nat)
    (h : hlFindIndexById t l = some i) : ∃ m, l.get? i = some m := by
  unfold hlFindIndexById at h
  split at h
  · split at h
    · exact absurd h (by simp)
    · obtain ⟨m, hm, _⟩ := findIndexJs_get _ _ _ h
      exact ⟨m, hm⟩
  · exact absurd h (by simp)

theorem hlFindIndexByTs_get (t : PendingHighlight) (l : List Message) (i : Nat)
    (h : hlFindIndexByTs t l = some i) : ∃ m, l.get? i = some m := by
  unfold hlFindIndexByTs at h
  split at h
  · split at h
    · exact absurd h (by simp)
    · obtain ⟨m, hm, _⟩ := findIndexJs_get _ _ _ h
      exact ⟨m, hm⟩
  · exact absurd h (by simp)

theorem hlFindIndex_get (t : PendingHighlight) (l : List Message) (i : Nat)
    (h : hlFindIndex t l = some i) : ∃ m, l.get? i = some m := by
  unfold hlFindIndex at h
  split at h
  · rename_i j heq
    exact Option.some.inj h ▸ hlFindIndexById_get t l j heq
  · exact hlFindIndexByTs_get t l i h

/-! ### Claim theorems -/

/-- C1 (counterexample): the message feed does no deduplication — loading
an older page that repeats the already-loaded message id produces a feed
with a duplicate id, so ids are not unique within every feed after every
operation. -/
theorem loadOlderIntroducesDuplicateId :
    ¬ (((loadOlder dupOlderStart (some ⟨[msgDup], none, false⟩)).fst.messages.map
        Message.id).Nodup) := by
  decide

/-- C1 (amended): in the conversation feed, `appendConversations` never
introduces an id already present (every appended item comes either from
the existing feed or is a new item whose id was absent), and ids stay
unique provided the fetched page's ids are themselves pairwise distinct;
the message feed appends pages without any deduplication. -/
theorem appendConversationsKeepsIdsNodup (existing incoming : List Conversation)
    (h1 : (existing.map Conversation.id).Nodup)
    (h2 : (incoming.map Conversation.id).Nodup) :
    ((appendConversations existing incoming).map Conversation.id).Nodup ∧
    ∀ c ∈ appendConversations existing incoming,
      c ∈ existing ∨ (c ∈ incoming ∧ c.id ∉ existing.map Conversation.id) := by
  constructor
  · unfold appendConversations
    simp only [List.map_append, List.nodup_append]
    refine ⟨h1, ?_, ?_⟩
    · exact h2.sublist ((List.filter_sublist _).map _)
    · intro a ha hb
      rcases List.mem_map.mp hb with ⟨c, hc, rfl⟩
      have hpc := List.of_mem_filter hc
      simp only [Bool.not_eq_true'] at hpc
      rw [Bool.eq_false_iff] at hpc
      exact hpc (List.elem_iff.mpr ha)
  · intro c hc
    unfold appendConversations at hc
    rcases List.mem_append.mp hc with h | h
    · exact Or.inl h
    · refine Or.inr ⟨List.mem_of_mem_filter h, ?_⟩
      have hpc := List.of_mem_filter h
      simp only [Bool.not_eq_true'] at hpc
      rw [Bool.eq_false_iff] at hpc
      exact fun hmem => hpc (List.elem_iff.mpr hmem)

/-- C1 (witness): the amended theorem applied to two concrete pages with
an overlapping id. -/
theorem appendConversationsKeepsIdsNodupWitness :
    ([convA, convB].map Conversation.id).Nodup ∧
    ([convB, convD].map Conversation.id).Nodup ∧
    (((appendConversations [convA, convB] [convB, convD]).map Conversation.id).Nodup ∧
      ∀ c ∈ appendConversations [convA, convB] [convB, convD],
        c ∈ [convA, convB] ∨
          (c ∈ [convB, convD] ∧ c.id ∉ [convA, convB].map Conversation.id)) :=
  ⟨by decide, by decide,
    appendConversationsKeepsIdsNodup [convA, convB] [convB, convD] (by decide) (by decide)⟩

/-- C2: evaluation of the code at the claim's own scenario — 20 messages
per page, 3 pages available, highlight target on page 3.  Because the
effect re-runs when `loadingOlder` flips true (dep array, line 1113) and
that re-run takes the already-loading give-up branch (lines 1103-1106),
the program issues exactly 1 additional older-page fetch, clears the
pending target before the page lands, and never sets a highlight —
diverging from the claimed 2 fetches and final `activeId` equal to the
target's id. -/
theorem highlightAbandonedAfterFirstFetch :
    (resolverRun threePageServer threePageStart).snd = 1 ∧
    (resolverRun threePageServer threePageStart).fst.highlightedMessageId = none ∧
    (resolverRun threePageServer threePageStart).fst.pendingHighlight = none := by
  decide

/-- C3: a `loadMore` (conversations) or `loadOlder` (messages) call made
while a fetch for that feed is already in flight (the `loadingMore` /
`loadingOlder` flag or the `onEndReached` ref is set) leaves the state
unchanged and issues no request. -/
theorem inFlightFetchIsNoOp (sc : ConvListState) (sm : DetailState)
    (rc : Option ConvPage) (rm : Option MsgPage)
    (hc : sc.loadingMore = true ∨ sc.onEndReachedCalled = true)
    (hm : sm.loadingOlder = true ∨ sm.onEndReached = true) :
    loadMore sc rc = (sc, false) ∧ loadOlder sm rm = (sm, false) := by
  constructor
  · rcases hc with h | h
    · simp [loadMore, h]
    · unfold loadMore
      split
      · rfl
      · simp [h]
  · rcases hm with h | h
    · simp [loadOlder, h]
    · unfold loadOlder
      split
      · rfl
      · simp [h]

/-- C3 (witness): the no-op theorem applied to concrete in-flight states. -/
theorem inFlightFetchIsNoOpWitness :
    busyConvState.loadingMore = true ∧
    busyDetailState.loadingOlder = true ∧
    loadMore busyConvState none = (busyConvState, false) ∧
    loadOlder busyDetailState none = (busyDetailState, false) :=
  ⟨rfl, rfl,
    (inFlightFetchIsNoOp busyConvState busyDetailState none none
      (Or.inl rfl) (Or.inl rfl)).1,
    (inFlightFetchIsNoOp busyConvState busyDetailState none none
      (Or.inl rfl) (Or.inl rfl)).2⟩

/-- C4: starting from the initial load (which reverses page 1) and folding
any sequence of older-page loads (each of which reverses its page and
appends it at the tail), the in-memory message list equals
`reverse(page_1) ++ reverse(page_2) ++ ... ++ reverse(page_n)` in fetch
order. -/
theorem messageFeedIsReversedPagesConcat (firstPage : List Message)
    (olderPages : List (List Message)) :
    olderPages.foldl appendOlderMessages (initialMessageLoad firstPage) =
      ((firstPage :: olderPages).map List.reverse).flatten := by
  simp [foldl_appendOlderMessages, initialMessageLoad]

/-- C5: when a pending target is present and the scan (exact id first,
exact timestamp only if no id matched) finds a message, the resolver sets
the highlighted id to the matched message's id, starts the one-shot
1000 ms clearing timer, clears the pending target, and the timer firing
clears the highlight. -/
theorem highlightFoundSetsActiveIdAndClears (s : DetailState) (t : PendingHighlight) (i : Nat)
    (hp : s.pendingHighlight = some t)
    (hf : hlFindIndex t s.messages = some i) :
    ∃ m, s.messages.get? i = some m ∧
      (highlightEffect s).state.highlightedMessageId = some m.id ∧
      (highlightEffect s).state.pendingHighlight = none ∧
      (highlightEffect s).timerDelayMs = some 1000 ∧
      (highlightEffect s).triggeredFetch = false ∧
      (highlightTimerFire (highlightEffect s).state).highlightedMessageId = none := by
  obtain ⟨m, hm⟩ := hlFindIndex_get t s.messages i hf
  have hne : s.messages.isEmpty = false := by
    cases hmsg : s.messages with
    | nil => rw [hmsg] at hm; simp at hm
    | cons a rest => rfl
  refine ⟨m, hm, ?_, ?_, ?_, ?_, ?_⟩
  · simp only [highlightEffect, hp, hne, hf]
    simp only [Bool.false_eq_true, if_false]
    exact congrArg (Option.map Message.id) hm
  · simp [highlightEffect, hp, hne, hf]
  · simp [highlightEffect, hp, hne, hf, highlightDisplayMs]
  · simp [highlightEffect, hp, hne, hf]
  · simp [highlightEffect, hp, hne, hf, highlightTimerFire]

/-- C5 (witness): the found-target theorem applied to a concrete state
whose single message matches the pending id. -/
theorem highlightFoundSetsActiveIdAndClearsWitness :
    foundState.pendingHighlight = some ⟨some "w1", none⟩ ∧
    hlFindIndex ⟨some "w1", none⟩ foundState.messages = some 0 ∧
    ∃ m, foundState.messages.get? 0 = some m ∧
      (highlightEffect foundState).state.highlightedMessageId = some m.id ∧
      (highlightEffect foundState).state.pendingHighlight = none ∧
      (highlightEffect foundState).timerDelayMs = some 1000 ∧
      (highlightEffect foundState).triggeredFetch = false ∧
      (highlightTimerFire (highlightEffect foundState).state).highlightedMessageId = none :=
  ⟨rfl, by decide,
    highlightFoundSetsActiveIdAndClears foundState ⟨some "w1", none⟩ 0 rfl (by decide)⟩

/-- C6: from a feed `[A,B,C]` with cursor `c1` and `hasMore = true`, a
`loadMore` whose page returns `[D,B]`, no cursor and `hasMore = false`
yields exactly the feed `[A,B,C,D]` (B not duplicated, existing items
first, new non-duplicates in server order) with `hasMore = false`. -/
theorem loadMoreDedupExactFeed :
    loadMore
      { conversations := [convA, convB, convC], nextCursor := some "c1",
        hasMore := true, loadingMore := false, onEndReachedCalled := false }
      (some { conversations := [convD, convB], nextCursor := none, hasMore := false })
    = ({ conversations := [convA, convB, convC, convD], nextCursor := none,
         hasMore := false, loadingMore := false, onEndReachedCalled := false }, true) := by
  decide

/-- C7 (counterexample): with a pending target, an empty loaded message
list and `hasMore = false`, the resolver effect returns early and the
pending target is NOT cleared, contradicting the claim that it is always
cleared in the not-found, no-more-pages case. -/
theorem emptyFeedKeepsPendingHighlight :
    (highlightEffect emptyFeedState).state.pendingHighlight = some ⟨some "m1", none⟩ := by
  decide

/-- C7 (amended): when a pending target is present, the loaded message
list is nonempty, the scan finds no match, and `hasMore` is false or a
fetch is already in flight, the resolver clears the pending target, never
sets a highlight, starts no timer and triggers no fetch (silently and
terminally); with an empty message list the effect instead does nothing at
all, leaving the target pending. -/
theorem highlightExhaustedClearsPending (s : DetailState) (t : PendingHighlight)
    (hp : s.pendingHighlight = some t)
    (hne : s.messages ≠ [])
    (hnf : hlFindIndex t s.messages = none)
    (hstop : s.hasMore = false ∨ s.loadingOlder = true) :
    (highlightEffect s).state.pendingHighlight = none ∧
    (highlightEffect s).state.highlightedMessageId = s.highlightedMessageId ∧
    (highlightEffect s).triggeredFetch = false ∧
    (highlightEffect s).timerDelayMs = none := by
  have hne' : s.messages.isEmpty = false := by
    cases hmsg : s.messages with
    | nil => exact absurd hmsg hne
    | cons a rest => rfl
  have hcond : (s.hasMore && !s.loadingOlder) = false := by
    rcases hstop with h | h <;> simp [h]
  refine ⟨?_, ?_, ?_, ?_⟩ <;>
    simp [highlightEffect, hp, hne', hnf, hcond]

/-- C7 (witness): the exhausted-target theorem applied to a concrete
nonempty state whose pending id matches no message. -/
theorem highlightExhaustedClearsPendingWitness :
    exhaustedState.pendingHighlight = some ⟨some "zz", none⟩ ∧
    exhaustedState.messages ≠ [] ∧
    hlFindIndex ⟨some "zz", none⟩ exhaustedState.messages = none ∧
    exhaustedState.hasMore = false ∧
    ((highlightEffect exhaustedState).state.pendingHighlight = none ∧
      (highlightEffect exhaustedState).state.highlightedMessageId =
        exhaustedState.highlightedMessageId ∧
      (highlightEffect exhaustedState).triggeredFetch = false ∧
      (highlightEffect exhaustedState).timerDelayMs = none) :=
  ⟨rfl, by decide, by decide, rfl,
    highlightExhaustedClearsPending exhaustedState ⟨some "zz", none⟩ rfl
      (by decide) (by decide) (Or.inl rfl)⟩

/-- C8: a failed background pagination fetch (`loadMore` or `loadOlder`
whose promise rejects) leaves the whole controller state — feed, cursor,
`hasMore`, error banner — exactly as it was. -/
theorem paginationFailureLeavesStateIntact (sc : ConvListState) (sm : DetailState) :
    (loadMore sc none).fst = sc ∧ (loadOlder sm none).fst = sm := by
  constructor
  · unfold loadMore
    split
    · rfl
    · split
      · rfl
      · rename_i hguard href
        have h1 : sc.loadingMore = false := by
          cases h : sc.loadingMore
          · rfl
          · exact absurd (by simp [h]) hguard
        have h2 : sc.onEndReachedCalled = false := Bool.eq_false_iff.mpr href
        cases sc
        simp_all
  · unfold loadOlder
    split
    · rfl
    · split
      · rfl
      · rename_i hguard href
        have h1 : sm.loadingOlder = false := by
          cases h : sm.loadingOlder
          · rfl
          · exact absurd (by simp [h]) hguard
        have h2 : sm.onEndReached = false := Bool.eq_false_iff.mpr href
        cases sm
        simp_all

/-- C9 (counterexample): after a failed send of the draft `"hi "` the
composer holds `"hi"` — the trimmed content — not the exact text the user
typed. -/
theorem failedSendRestoresTrimmedNotOriginal :
    (handleSendText "hi " "c1" false).fst ≠ "hi " := by
  decide

/-- C9 (amended): a failed text send leaves the composer's draft equal to
the trimmed text the user typed (whenever the trimmed content and the
conversation id are nonempty, i.e. a send was actually attempted); the
draft is therefore unchanged exactly when the typed text had no leading or
trailing whitespace. -/
theorem failedSendLeavesTrimmedDraft (text conversationId : String)
    (hcontent : jsTrim text ≠ "")
    (hconv : conversationId ≠ "") :
    handleSendText text conversationId false = (jsTrim text, true) := by
  unfold handleSendText
  have hguard : (jsTrim text == "" || conversationId == "") = false := by
    simp [hcontent, hconv]
  simp [hguard]

/-- C9 (witness): the amended theorem applied to the draft `"hi "`. -/
theorem failedSendLeavesTrimmedDraftWitness :
    jsTrim "hi " ≠ "" ∧ ("c1" : String) ≠ "" ∧
    handleSendText "hi " "c1" false = (jsTrim "hi ", true) :=
  ⟨by decide, by decide, failedSendLeavesTrimmedDraft "hi " "c1" (by decide) (by decide)⟩

/-- C10: `fetchConversationReaders` never throws — an empty conversation
id yields `[]` without issuing a request, and a failed request or mapping
yields `[]` after the request. -/
theorem fetchReadersNeverThrows (dateParse : String → Nat) (conversationId : String)
    (response : Except String ConversationReadersApiResponse) :
    (conversationId = "" →
      fetchConversationReaders dateParse conversationId response = ([], false)) ∧
    (∀ e, conversationId ≠ "" → response = Except.error e →
      fetchConversationReaders dateParse conversationId response = ([], true)) := by
  constructor
  · intro h
    simp [fetchConversationReaders, h]
  · intro e hne herr
    simp [fetchConversationReaders, hne, herr]

/-- C10 (witness): the theorem applied to an empty id and to a failing
request. -/
theorem fetchReadersNeverThrowsWitness :
    fetchConversationReaders (fun _ => 0) "" (Except.ok {}) = ([], false) ∧
    fetchConversationReaders (fun _ => 0) "c1" (Except.error "network") = ([], true) :=
  ⟨(fetchReadersNeverThrows (fun _ => 0) "" (Except.ok {})).1 rfl,
    (fetchReadersNeverThrows (fun _ => 0) "c1" (Except.error "network")).2
      "network" (by decide) rfl⟩

end WhatsappApp
